import Mathlib

/-!
Verification of the bankX user-actions module (account linking, sign-up,
sign-in, bank lookup) against its natural-language specification.

The module is glue code around three external services (identity gateway,
bank-data aggregation, payment rail).  Each server action makes each external
call at most once per run, so a run's environment is modelled as the response
each service gives to the single call the action issues to it; a thrown
vendor-SDK error is modelled as `none`.  Each embedded action returns, besides
its JavaScript return value, the persisted document (if any) and the ordered
list of external calls it issued.
-/

namespace BankX

/-- Truthiness of a JavaScript string-or-undefined value: undefined and the
empty string are falsy, every other string is truthy. -/
def jsFalsy : Option String → Bool
  | none => true
  | some s => s == ""

/-- Negation of `jsFalsy`: the value is a non-empty string. -/
def jsTruthy (o : Option String) : Bool := !(jsFalsy o)

/-! ## Linking workflow (exchangePublicToken, user-actions module part_003) -/

/-- Payload of a successful itemPublicTokenExchange call. -/
structure PlaidExchange where
  access_token : String
  item_id : String
  deriving Repr, DecidableEq

/-- One account record returned by accountsGet. -/
structure PlaidAccount where
  account_id : String
  name : String
  deriving Repr, DecidableEq

/-- Bank Account Link document, with exactly the fields createBankAccount
persists (part_003 lines 241-253). -/
structure BankDoc where
  userId : String
  bankId : String
  accountId : String
  accessToken : String
  fundingSourceUrl : String
  shareableId : String
  deriving Repr, DecidableEq

/-- Fields of the signed-in user that the linking workflow reads. -/
structure LinkUser where
  id : String
  dwollaCustomerId : String
  deriving Repr, DecidableEq

/-- Responses of the external services during one linking-workflow run:
itemPublicTokenExchange, accountsGet, processorTokenCreate, addFundingSource
(none models a thrown error or an undefined result), and whether the
bank-document write inside createBankAccount succeeds.

Modelled from the spec: the encryptId helper is imported from a utility module
that is absent from the corpus (only its call sites exist), and the spec fixes
no algorithm for it — only that the shareable id is derived from the account
id — so it is kept abstract as a function supplied by the environment. -/
structure LinkEnv where
  exchangeResult : Option PlaidExchange
  accountsResult : Option (List PlaidAccount)
  processorResult : Option String
  fundingResult : Option String
  dbOk : Bool
  encryptId : String → String

/-- External calls the linking workflow can issue, in source order. -/
inductive LinkCall where
  | exchange
  | accountsGet
  | processorTokenCreate
  | addFundingSource
  | createBankDoc
  | revalidate
  deriving Repr, DecidableEq

/-- Observable outcome of one linking-workflow run: the value returned to the
caller (none models a thrown error), the Bank Account Link document actually
persisted, and the ordered list of external calls issued. -/
structure LinkOutcome where
  result : Option (List (String × String))
  written : Option BankDoc
  calls : List LinkCall
  deriving Repr, DecidableEq

/-- Shallow embedding of exchangePublicToken (part_003 lines 274-335):
exchange the public token, read accounts[0], create a processor token, add a
funding source, throw when the returned url is falsy, persist the bank
document (createBankAccount swallows its own write failure), revalidate the
path and return the completion object.  When accountsGet yields an empty
list, accounts[0] is undefined and reading accountData.account_id throws
before the processor-token call; the outer catch rethrows, so the run returns
nothing. -/
def exchangePublicToken (env : LinkEnv) (_publicToken : String) (user : LinkUser) :
    LinkOutcome :=
  match env.exchangeResult with
  | none => ⟨none, none, [.exchange]⟩
  | some ex =>
    match env.accountsResult with
    | none => ⟨none, none, [.exchange, .accountsGet]⟩
    | some accounts =>
      match accounts.head? with
      | none => ⟨none, none, [.exchange, .accountsGet]⟩
      | some accountData =>
        match env.processorResult with
        | none => ⟨none, none, [.exchange, .accountsGet, .processorTokenCreate]⟩
        | some _processorToken =>
          match env.fundingResult with
          | none =>
            ⟨none, none,
             [.exchange, .accountsGet, .processorTokenCreate, .addFundingSource]⟩
          | some url =>
            if url = "" then
              ⟨none, none,
               [.exchange, .accountsGet, .processorTokenCreate, .addFundingSource]⟩
            else
              ⟨some [(("publicTokenExchange"), ("complete"))],
               if env.dbOk then
                 some ⟨user.id, ex.item_id, accountData.account_id, ex.access_token,
                       url, env.encryptId accountData.account_id⟩
               else none,
               [.exchange, .accountsGet, .processorTokenCreate, .addFundingSource,
                .createBankDoc, .revalidate]⟩

/-- The full call sequence of a successful linking-workflow run. -/
def linkCallsFull : List LinkCall :=
  [.exchange, .accountsGet, .processorTokenCreate, .addFundingSource,
   .createBankDoc, .revalidate]

/-! ## Bank lookup by account id (part_003 lines 382-398) -/

/-- Shallow embedding of getBankByAccountId against a database state:
listDocuments returns the bank documents whose accountId equals the query
value and reports their number as total; when total is not exactly 1 the
function returns null, otherwise documents[0]. -/
def getBankByAccountId (db : List BankDoc) (accountId : String) : Option BankDoc :=
  let documents := db.filter (fun d => d.accountId == accountId)
  if documents.length ≠ 1 then none else documents.head?

/-! ## Sign-up and sign-in (part_003 lines 52-140) -/

/-- Sign-up form fields other than the password: the rest-spread userData of
part_003 line 83, where the password is destructured away before the rest of
the object is used. -/
structure UserData where
  firstName : String
  lastName : String
  address1 : String
  city : String
  state : String
  postalCode : String
  dateOfBirth : String
  ssn : String
  email : String
  deriving Repr, DecidableEq

/-- Full sign-up parameter object, password included (the flat SignUpParams
object the form submits). -/
structure SignUpParams where
  firstName : String
  lastName : String
  address1 : String
  city : String
  state : String
  postalCode : String
  dateOfBirth : String
  ssn : String
  email : String
  password : String
  deriving Repr, DecidableEq

/-- The rest-spread userData: every field of the parameter object except the
password. -/
def userDataOf (p : SignUpParams) : UserData :=
  ⟨p.firstName, p.lastName, p.address1, p.city, p.state, p.postalCode,
   p.dateOfBirth, p.ssn, p.email⟩

/-- Rebuild a full parameter object from its password-free part and a
password. -/
def paramsOf (d : UserData) (password : String) : SignUpParams :=
  ⟨d.firstName, d.lastName, d.address1, d.city, d.state, d.postalCode,
   d.dateOfBirth, d.ssn, d.email, password⟩

/-- User document persisted by signUp (part_003 lines 113-123): the spread
userData plus the identity-account id and the payment-rail customer id and
url.  The structure has no password field: the document is built from the
password-free rest object. -/
structure UserDoc where
  data : UserData
  userId : String
  dwollaCustomerId : String
  dwollaCustomerUrl : String
  deriving Repr, DecidableEq

/-- Responses of the external services during one signUp run: the id of the
identity account account.create returns (none models a thrown error), the
customer url createDwollaCustomer returns (none models a failure returning
undefined), whether database.createDocument succeeds, and the secret of the
session createEmailPasswordSession returns (none models a thrown error).

Modelled from the spec: createDwollaCustomer and extractCustomerIdFromUrl
live in modules absent from the corpus (the dwolla actions and the utility
module; only their call sites exist).  Per the spec, sign-up obtains a
payment-rail customer id/url; the customer-creation call is represented by
the url the environment supplies and the id extraction by an abstract
function on that url. -/
structure SignUpEnv where
  accountCreateResult : Option String
  dwollaCustomerResult : Option String
  docWriteOk : Bool
  sessionResult : Option String
  extractCustomerIdFromUrl : String → String

/-- External calls a sign-up run can issue.  The two deletion calls are the
compensating actions a saga would need; the code never issues them. -/
inductive AuthCall where
  | accountCreate (email password displayName : String)
  | dwollaCustomerCreate (d : UserData)
  | userDocCreate (doc : UserDoc)
  | sessionCreate (email password : String)
  | accountDelete (userId : String)
  | dwollaCustomerDelete (customerUrl : String)
  deriving Repr, DecidableEq

/-- Whether a call is a compensating deletion. -/
def AuthCall.isCompensation : AuthCall → Bool
  | .accountDelete _ => true
  | .dwollaCustomerDelete _ => true
  | _ => false

/-- Observable outcome of one signUp run: the value returned to the caller
(none models the catch path returning undefined), the secret stored in the
appwrite-session cookie (none when the cookie was never set), the user
document actually persisted, and the ordered list of external calls. -/
structure SignUpOutcome where
  result : Option UserDoc
  cookie : Option String
  docWritten : Option UserDoc
  calls : List AuthCall
  deriving Repr, DecidableEq

/-- Shallow embedding of signUp (part_003 lines 83-140): destructure the
password away from userData, create the identity account, create the
payment-rail customer (throw when its url is falsy), persist the user
document built from userData plus the service ids, create a session and set
the cookie to its secret, and return the document.  Any thrown error reaches
the catch, which logs and returns undefined; no deletion of already-created
external state is ever attempted. -/
def signUp (env : SignUpEnv) (p : SignUpParams) : SignUpOutcome :=
  let userData := userDataOf p
  let displayName := p.firstName ++ (" ") ++ p.lastName
  match env.accountCreateResult with
  | none => ⟨none, none, none, [.accountCreate p.email p.password displayName]⟩
  | some userId =>
    match env.dwollaCustomerResult with
    | none =>
      ⟨none, none, none,
       [.accountCreate p.email p.password displayName, .dwollaCustomerCreate userData]⟩
    | some dwollaCustomerUrl =>
      if dwollaCustomerUrl = "" then
        ⟨none, none, none,
         [.accountCreate p.email p.password displayName, .dwollaCustomerCreate userData]⟩
      else
        let dwollaCustomerId := env.extractCustomerIdFromUrl dwollaCustomerUrl
        let doc : UserDoc := ⟨userData, userId, dwollaCustomerId, dwollaCustomerUrl⟩
        if env.docWriteOk then
          match env.sessionResult with
          | none =>
            ⟨none, none, some doc,
             [.accountCreate p.email p.password displayName,
              .dwollaCustomerCreate userData, .userDocCreate doc,
              .sessionCreate p.email p.password]⟩
          | some secret =>
            ⟨some doc, some secret, some doc,
             [.accountCreate p.email p.password displayName,
              .dwollaCustomerCreate userData, .userDocCreate doc,
              .sessionCreate p.email p.password]⟩
        else
          ⟨none, none, none,
           [.accountCreate p.email p.password displayName,
            .dwollaCustomerCreate userData, .userDocCreate doc]⟩

/-- Response of createEmailPasswordSession during one signIn run: the secret
of the created session, none when the credentials are rejected. -/
structure SignInEnv where
  createSessionResult : Option String
  deriving Repr, DecidableEq

/-- Observable outcome of one signIn run. -/
structure SignInOutcome where
  result : Option UserDoc
  cookie : Option String
  deriving Repr, DecidableEq

/-- Shallow embedding of signIn (part_003 lines 52-72).  The code binds the
created session to a constant named response but then reads session.secret
and session.userId; no binding named session is in scope anywhere in the
module, so once createEmailPasswordSession succeeds the function throws a
ReferenceError before cookies().set runs; the catch logs and returns
undefined.  Hence no run of this signIn ever sets the cookie or returns a
user, whether the upstream call succeeds or fails. -/
def signIn (env : SignInEnv) (_email _password : String) : SignInOutcome :=
  match env.createSessionResult with
  | none => ⟨none, none⟩
  | some _ => ⟨none, none⟩

/-- Rebuilding a parameter object from a password-free part and taking the
rest spread gives back that part. -/
theorem userDataOf_paramsOf (d : UserData) (pw : String) :
    userDataOf (paramsOf d pw) = d := rfl

/-! ## Concrete run environments used by the witnesses -/

/-- Environment of a fully successful linking run, with the values of the
spec's example scenario; the abstract shareable-id derivation is instantiated
with the identity function. -/
def okLinkEnv : LinkEnv :=
  { exchangeResult := some ⟨("access-abc"), ("item-1")⟩,
    accountsResult := some [⟨("acc-1"), ("Checking")⟩],
    processorResult := some ("proc-xyz"),
    fundingResult := some ("https://rail/funding/1"),
    dbOk := true,
    encryptId := fun s => s }

/-- A concrete signed-in user. -/
def okLinkUser : LinkUser := ⟨("user-1"), ("dwolla-cust-1")⟩

/-- Linking environment whose funding-source call returns no url. -/
def noUrlLinkEnv : LinkEnv := { okLinkEnv with fundingResult := none }

/-- Linking environment whose accountsGet call returns an empty list. -/
def emptyAccountsLinkEnv : LinkEnv := { okLinkEnv with accountsResult := some [] }

/-! ## Theorems -/

/-- C1: a Bank Account Link document is persisted only when every step up to
and including funding-source creation succeeded — the token exchange
returned, accountsGet returned a non-empty list, the processor token was
created, and the funding-source call returned a non-empty url.  If any of
those steps fails, no bank document is written. -/
theorem exchangePublicToken_written_requires_all_steps
    (env : LinkEnv) (pt : String) (u : LinkUser) (d : BankDoc)
    (h : (exchangePublicToken env pt u).written = some d) :
    env.exchangeResult.isSome = true ∧
    env.accountsResult.isSome = true ∧ env.accountsResult ≠ some [] ∧
    env.processorResult.isSome = true ∧
    jsTruthy env.fundingResult = true := by
  obtain ⟨ex, accs, proc, fund, db, enc⟩ := env
  cases ex with
  | none => simp [exchangePublicToken] at h
  | some ex =>
    cases accs with
    | none => simp [exchangePublicToken] at h
    | some l =>
      cases l with
      | nil => simp [exchangePublicToken] at h
      | cons a rest =>
        cases proc with
        | none => simp [exchangePublicToken] at h
        | some ptok =>
          cases fund with
          | none => simp [exchangePublicToken] at h
          | some url =>
            by_cases hu : url = ""
            · simp [exchangePublicToken, hu] at h
            · simp [jsTruthy, jsFalsy, hu]

/-- C1 witness: in the fully successful example run the document is written
and every step indeed succeeded. -/
theorem exchangePublicToken_written_requires_all_steps_witness :
    okLinkEnv.exchangeResult.isSome = true ∧
    okLinkEnv.accountsResult.isSome = true ∧ okLinkEnv.accountsResult ≠ some [] ∧
    okLinkEnv.processorResult.isSome = true ∧
    jsTruthy okLinkEnv.fundingResult = true :=
  exchangePublicToken_written_requires_all_steps okLinkEnv ("pt-1") okLinkUser
    ⟨("user-1"), ("item-1"), ("acc-1"), ("access-abc"), ("https://rail/funding/1"),
     ("acc-1")⟩
    (by decide)

/-- C2 counterexample: at the spec's example scenario the workflow returns
the object whose single field is publicTokenExchange = complete; it is not
the status = complete object the claim states. -/
theorem exchangePublicToken_result_not_status_field :
    (exchangePublicToken okLinkEnv ("public-sandbox-123") okLinkUser).result ≠
      some [(("status"), ("complete"))] ∧
    (exchangePublicToken okLinkEnv ("public-sandbox-123") okLinkUser).result =
      some [(("publicTokenExchange"), ("complete"))] := by
  constructor
  · decide
  · rfl

/-- C2 (amended): when every external call succeeds, the workflow persists
exactly one Bank Account Link combining the user id, the item id as bankId,
the account id, the access token, the funding-source url and the derived
shareable id, and returns the completion object whose field is
publicTokenExchange = complete (not status = complete). -/
theorem exchangePublicToken_success_behavior
    (env : LinkEnv) (pt : String) (u : LinkUser)
    (ex : PlaidExchange) (a : PlaidAccount) (rest : List PlaidAccount)
    (ptok url : String)
    (h1 : env.exchangeResult = some ex)
    (h2 : env.accountsResult = some (a :: rest))
    (h3 : env.processorResult = some ptok)
    (h4 : env.fundingResult = some url)
    (h5 : url ≠ "")
    (h6 : env.dbOk = true) :
    (exchangePublicToken env pt u).written =
      some ⟨u.id, ex.item_id, a.account_id, ex.access_token, url,
            env.encryptId a.account_id⟩ ∧
    (exchangePublicToken env pt u).result =
      some [(("publicTokenExchange"), ("complete"))] ∧
    (exchangePublicToken env pt u).calls.count .createBankDoc = 1 := by
  obtain ⟨e1, e2, e3, e4, e5, e6⟩ := env
  dsimp at h1 h2 h3 h4 h6 ⊢
  subst h1; subst h2; subst h3; subst h4; subst h6
  refine ⟨?_, ?_, ?_⟩ <;> simp [exchangePublicToken, h5, List.count_cons]

/-- C2 witness: the amended statement evaluated at the spec's example
scenario. -/
theorem exchangePublicToken_success_behavior_witness :
    (exchangePublicToken okLinkEnv ("public-sandbox-123") okLinkUser).written =
      some ⟨("user-1"), ("item-1"), ("acc-1"), ("access-abc"),
            ("https://rail/funding/1"), ("acc-1")⟩ ∧
    (exchangePublicToken okLinkEnv ("public-sandbox-123") okLinkUser).result =
      some [(("publicTokenExchange"), ("complete"))] ∧
    (exchangePublicToken okLinkEnv ("public-sandbox-123") okLinkUser).calls.count
        .createBankDoc = 1 := by
  have h := exchangePublicToken_success_behavior okLinkEnv ("public-sandbox-123")
    okLinkUser ⟨("access-abc"), ("item-1")⟩ ⟨("acc-1"), ("Checking")⟩ []
    ("proc-xyz") ("https://rail/funding/1") rfl rfl rfl rfl (by decide) rfl
  exact h

/-- C3: whenever the funding-source call yields no url (undefined or the
empty string), the workflow persists nothing and returns nothing. -/
theorem exchangePublicToken_no_url_aborts
    (env : LinkEnv) (pt : String) (u : LinkUser)
    (h : jsFalsy env.fundingResult = true) :
    (exchangePublicToken env pt u).written = none ∧
    (exchangePublicToken env pt u).result = none := by
  obtain ⟨ex, accs, proc, fund, db, enc⟩ := env
  dsimp [jsFalsy] at h
  cases ex with
  | none => simp [exchangePublicToken]
  | some ex =>
    cases accs with
    | none => simp [exchangePublicToken]
    | some l =>
      cases l with
      | nil => simp [exchangePublicToken]
      | cons a rest =>
        cases proc with
        | none => simp [exchangePublicToken]
        | some ptok =>
          cases fund with
          | none => simp [exchangePublicToken]
          | some url =>
            have hu : url = "" := by simpa using h
            simp [exchangePublicToken, hu]

/-- C3 witness: the run whose funding-source call returns undefined writes no
document and returns nothing. -/
theorem exchangePublicToken_no_url_aborts_witness :
    (exchangePublicToken noUrlLinkEnv ("pt-1") okLinkUser).written = none ∧
    (exchangePublicToken noUrlLinkEnv ("pt-1") okLinkUser).result = none :=
  exchangePublicToken_no_url_aborts noUrlLinkEnv ("pt-1") okLinkUser (by decide)

/-- C4: when accountsGet returns an empty account list the workflow fails
(returns nothing, persists nothing) and no payment-rail call is ever issued
in that run. -/
theorem exchangePublicToken_empty_accounts_aborts
    (env : LinkEnv) (pt : String) (u : LinkUser)
    (h : env.accountsResult = some []) :
    (exchangePublicToken env pt u).result = none ∧
    (exchangePublicToken env pt u).written = none ∧
    LinkCall.addFundingSource ∉ (exchangePublicToken env pt u).calls := by
  obtain ⟨ex, accs, proc, fund, db, enc⟩ := env
  dsimp at h
  subst h
  cases ex with
  | none => refine ⟨rfl, rfl, by simp [exchangePublicToken]⟩
  | some ex => refine ⟨rfl, rfl, by simp [exchangePublicToken]⟩

/-- C4 witness: the run whose account list is empty aborts with no
payment-rail call. -/
theorem exchangePublicToken_empty_accounts_aborts_witness :
    (exchangePublicToken emptyAccountsLinkEnv ("pt-1") okLinkUser).result = none ∧
    (exchangePublicToken emptyAccountsLinkEnv ("pt-1") okLinkUser).written = none ∧
    LinkCall.addFundingSource ∉
      (exchangePublicToken emptyAccountsLinkEnv ("pt-1") okLinkUser).calls :=
  exchangePublicToken_empty_accounts_aborts emptyAccountsLinkEnv ("pt-1") okLinkUser rfl

/-- C7: every run's call trace is an initial segment of the canonical
sequence exchange, accountsGet, processorTokenCreate, addFundingSource,
createBankDoc, revalidate — so the steps run in that order, no step runs
twice, and once a step fails no later call is made; the run returns a value
exactly when the whole sequence was issued. -/
theorem exchangePublicToken_sequential
    (env : LinkEnv) (pt : String) (u : LinkUser) :
    (∃ t, (exchangePublicToken env pt u).calls ++ t = linkCallsFull) ∧
    (exchangePublicToken env pt u).calls.Nodup ∧
    ((exchangePublicToken env pt u).result.isSome = true ↔
      (exchangePublicToken env pt u).calls = linkCallsFull) := by
  obtain ⟨ex, accs, proc, fund, db, enc⟩ := env
  cases ex with
  | none =>
    refine ⟨⟨[.accountsGet, .processorTokenCreate, .addFundingSource, .createBankDoc,
             .revalidate], ?_⟩, ?_, ?_⟩ <;> simp [exchangePublicToken, linkCallsFull]
  | some ex =>
    cases accs with
    | none =>
      refine ⟨⟨[.processorTokenCreate, .addFundingSource, .createBankDoc, .revalidate],
              ?_⟩, ?_, ?_⟩ <;> simp [exchangePublicToken, linkCallsFull]
    | some l =>
      cases l with
      | nil =>
        refine ⟨⟨[.processorTokenCreate, .addFundingSource, .createBankDoc, .revalidate],
                ?_⟩, ?_, ?_⟩ <;> simp [exchangePublicToken, linkCallsFull]
      | cons a rest =>
        cases proc with
        | none =>
          refine ⟨⟨[.addFundingSource, .createBankDoc, .revalidate], ?_⟩, ?_, ?_⟩ <;>
            simp [exchangePublicToken, linkCallsFull]
        | some ptok =>
          cases fund with
          | none =>
            refine ⟨⟨[.createBankDoc, .revalidate], ?_⟩, ?_, ?_⟩ <;>
              simp [exchangePublicToken, linkCallsFull]
          | some url =>
            by_cases hu : url = ""
            · refine ⟨⟨[.createBankDoc, .revalidate], ?_⟩, ?_, ?_⟩ <;>
                simp [exchangePublicToken, hu, linkCallsFull]
            · refine ⟨⟨[], ?_⟩, ?_, ?_⟩ <;>
                simp [exchangePublicToken, hu, linkCallsFull]

/-- C5: recorded as a code bug.  The source of signIn reads session.secret
although the created session is bound to the name response and no binding
named session exists, so even when createEmailPasswordSession succeeds the
run throws before cookies().set and returns undefined: the appwrite-session
cookie is never set on a successful sign-in, contradicting the spec's
cookie-iff-success contract.  This theorem evaluates the embedded code: for
every environment in which the upstream session creation succeeds, signIn
sets no cookie and returns no user. -/
theorem signIn_never_sets_cookie
    (env : SignInEnv) (email password s : String)
    (h : env.createSessionResult = some s) :
    (signIn env email password).cookie = none ∧
    (signIn env email password).result = none := by
  obtain ⟨r⟩ := env
  cases r with
  | none => exact ⟨rfl, rfl⟩
  | some sek => exact ⟨rfl, rfl⟩

/-- C5 witness: a concrete run whose session creation succeeds still sets no
cookie and returns nothing. -/
theorem signIn_never_sets_cookie_witness :
    (signIn ⟨some ("sek-1")⟩ ("user@example.com") ("hunter2")).cookie = none ∧
    (signIn ⟨some ("sek-1")⟩ ("user@example.com") ("hunter2")).result = none :=
  signIn_never_sets_cookie ⟨some ("sek-1")⟩ ("user@example.com") ("hunter2")
    ("sek-1") rfl

/-- C8: getBankByAccountId returns null whenever the number of persisted bank
documents matching the account id is not exactly one, and returns the single
matching document when exactly one matches. -/
theorem getBankByAccountId_unique_match
    (db : List BankDoc) (aid : String) :
    ((db.filter (fun d => d.accountId == aid)).length ≠ 1 →
        getBankByAccountId db aid = none) ∧
    (∀ d, db.filter (fun d => d.accountId == aid) = [d] →
        getBankByAccountId db aid = some d) := by
  constructor
  · intro h
    simp [getBankByAccountId, h]
  · intro d h
    simp [getBankByAccountId, h]

/-- C8 witness: two documents sharing an account id make the lookup return
null; a unique match is returned. -/
theorem getBankByAccountId_unique_match_witness :
    getBankByAccountId
      [⟨("u1"), ("b1"), ("acc-1"), ("t1"), ("f1"), ("s1")⟩,
       ⟨("u1"), ("b2"), ("acc-1"), ("t2"), ("f2"), ("s2")⟩] ("acc-1") = none ∧
    getBankByAccountId
      [⟨("u1"), ("b1"), ("acc-1"), ("t1"), ("f1"), ("s1")⟩,
       ⟨("u1"), ("b2"), ("acc-2"), ("t2"), ("f2"), ("s2")⟩] ("acc-2") =
      some ⟨("u1"), ("b2"), ("acc-2"), ("t2"), ("f2"), ("s2")⟩ := by
  constructor
  · exact (getBankByAccountId_unique_match
      [⟨("u1"), ("b1"), ("acc-1"), ("t1"), ("f1"), ("s1")⟩,
       ⟨("u1"), ("b2"), ("acc-1"), ("t2"), ("f2"), ("s2")⟩] ("acc-1")).1 (by decide)
  · exact (getBankByAccountId_unique_match
      [⟨("u1"), ("b1"), ("acc-1"), ("t1"), ("f1"), ("s1")⟩,
       ⟨("u1"), ("b2"), ("acc-2"), ("t2"), ("f2"), ("s2")⟩] ("acc-2")).2
      ⟨("u1"), ("b2"), ("acc-2"), ("t2"), ("f2"), ("s2")⟩ (by decide)

/-- C9: the persisted user document is independent of the password.  The
password is destructured away before the rest spread builds the document, so
two sign-up runs differing only in the password persist (and return) the very
same document, whatever the environment does. -/
theorem signUp_doc_independent_of_password
    (env : SignUpEnv) (d : UserData) (pw1 pw2 : String) :
    (signUp env (paramsOf d pw1)).docWritten =
      (signUp env (paramsOf d pw2)).docWritten ∧
    (signUp env (paramsOf d pw1)).result = (signUp env (paramsOf d pw2)).result := by
  obtain ⟨a, dw, dbw, se, ext⟩ := env
  cases a with
  | none => exact ⟨rfl, rfl⟩
  | some uid =>
    cases dw with
    | none => exact ⟨rfl, rfl⟩
    | some url =>
      by_cases hu : url = ""
      · simp [signUp, hu]
      · cases dbw with
        | false => simp [signUp, hu]
        | true =>
          cases se with
          | none => simp [signUp, hu, userDataOf_paramsOf]
          | some sek => simp [signUp, hu, userDataOf_paramsOf]

/-- C10: when the identity account was created and the payment-rail customer
was created but a later step fails (the user-document write or the session
creation), signUp sets no cookie and returns undefined, while the account
and customer creations stay in the call trace and no compensating deletion is
ever issued. -/
theorem signUp_partial_failure_no_compensation
    (env : SignUpEnv) (p : SignUpParams) (uid : String)
    (h1 : env.accountCreateResult = some uid)
    (h2 : jsTruthy env.dwollaCustomerResult = true)
    (h3 : env.docWriteOk = false ∨ env.sessionResult = none) :
    (signUp env p).cookie = none ∧
    (signUp env p).result = none ∧
    (AuthCall.accountCreate p.email p.password (p.firstName ++ (" ") ++ p.lastName))
        ∈ (signUp env p).calls ∧
    (AuthCall.dwollaCustomerCreate (userDataOf p)) ∈ (signUp env p).calls ∧
    (∀ c ∈ (signUp env p).calls, c.isCompensation = false) := by
  obtain ⟨a, dw, dbw, se, ext⟩ := env
  dsimp at h1 h2 h3
  subst h1
  cases dw with
  | none => simp [jsTruthy, jsFalsy] at h2
  | some url =>
    have hu : ¬(url = "") := by simpa [jsTruthy, jsFalsy] using h2
    rcases h3 with h3 | h3
    · subst h3
      refine ⟨by simp [signUp, hu], by simp [signUp, hu], by simp [signUp, hu],
              by simp [signUp, hu], ?_⟩
      intro c hc
      simp [signUp, hu] at hc
      rcases hc with rfl | rfl | rfl <;> rfl
    · subst h3
      cases dbw with
      | false =>
        refine ⟨by simp [signUp, hu], by simp [signUp, hu], by simp [signUp, hu],
                by simp [signUp, hu], ?_⟩
        intro c hc
        simp [signUp, hu] at hc
        rcases hc with rfl | rfl | rfl <;> rfl
      | true =>
        refine ⟨by simp [signUp, hu], by simp [signUp, hu], by simp [signUp, hu],
                by simp [signUp, hu], ?_⟩
        intro c hc
        simp [signUp, hu] at hc
        rcases hc with rfl | rfl | rfl | rfl <;> rfl

/-- A sign-up environment where account and customer creation succeed but the
user-document write fails. -/
def docFailSignUpEnv : SignUpEnv :=
  { accountCreateResult := some ("uid-1"),
    dwollaCustomerResult := some ("https://dwolla/customers/c1"),
    docWriteOk := false,
    sessionResult := some ("sek-1"),
    extractCustomerIdFromUrl := fun s => s }

/-- A concrete sign-up parameter object. -/
def someSignUpParams : SignUpParams :=
  ⟨("Ada"), ("Lovelace"), ("1 Main St"), ("London"), ("LN"), ("10001"),
   ("1815-12-10"), ("1234"), ("ada@example.com"), ("pw-1")⟩

/-- C10 witness: with the document write failing after both external
creations succeeded, the concrete run sets no cookie and returns nothing. -/
theorem signUp_partial_failure_no_compensation_witness :
    (signUp docFailSignUpEnv someSignUpParams).cookie = none ∧
    (signUp docFailSignUpEnv someSignUpParams).result = none := by
  obtain ⟨hc, hr, h3, h4, h5⟩ := signUp_partial_failure_no_compensation
    docFailSignUpEnv someSignUpParams ("uid-1") rfl (by decide) (Or.inl rfl)
  exact ⟨hc, hr⟩

end BankX
